import Mathlib

/-!
Verification of the ST-WorldEngine cross-frame synchronization core.

The definitions below are a shallow embedding of `src/message-security.js`
and `src/index.js`.  JavaScript numbers are modelled as rationals (`ℚ`),
with `JsNum.nonfinite` standing for any value whose `Number(...)` coercion
is `NaN` or `±Infinity`; `null`/`undefined` fields are `Option.none`;
JS truthiness of strings is `truthyStr` (`null`/`undefined`/`""` are falsy).
Values that live in repository files that are not part of the staged
sources (`settings-utils.js`, `chat-integration.js`) — the default settings
record, the snapshot builder, the normalized latest assistant entry — are
abstract parameters, constrained only where a claim needs it.
-/

namespace WorldEngine

/-- Shallow model of a loosely-typed JS value as it appears in message
payloads: a string, a number, or `null`.  Absent (`undefined`) fields are
represented by `Option.none` at the use site. -/
inductive JVal where
  | vstr (s : String)
  | vnum (q : ℚ)
  | vnull
deriving DecidableEq, Repr

/-- JS truthiness of a `string | null | undefined` value: `none` models
`null`/`undefined` (falsy) and the empty string is falsy. -/
def truthyStr : Option String → Bool
  | none => false
  | some s => s != ""

/-- The value stored by `rememberFrameOrigin` in `message-security.js`:
`{ origin, iframe }`.  The iframe element is an opaque handle. -/
structure FrameInfo where
  origin : Option String
  iframe : Option Nat
deriving DecidableEq, Repr

/-- The `trackedFrameOrigins` WeakMap of `message-security.js`, keyed by an
opaque frame-window handle (`Nat`).  `WeakMap.set` replaces a prior entry;
here insertion shadows it, and `lookupFrame` reads the newest entry. -/
abbrev Registry := List (Nat × FrameInfo)

/-- `trackedFrameOrigins.get(w)`. -/
def lookupFrame : Registry → Nat → Option FrameInfo
  | [], _ => none
  | (k, v) :: rest, w => if k = w then some v else lookupFrame rest w

/-- `rememberFrameOrigin(frameWindow, origin, iframe)` from
`message-security.js`: a falsy `frameWindow` is ignored, otherwise the
record for that handle is (re)set. -/
def rememberFrameOrigin (frameWindow : Option Nat) (origin : Option String)
    (iframe : Option Nat) (reg : Registry) : Registry :=
  match frameWindow with
  | none => reg
  | some w => (w, { origin := origin, iframe := iframe }) :: reg

/-- A chat payload as carried by an inbound frame message
(`data.payload` in `handleFrameChatMessage`).  Only the fields the
orchestrator reads are modelled. -/
structure FramePayload where
  text : Option JVal := none
  direction : Option String := none
  target : Option String := none
  action : Option String := none
deriving DecidableEq, Repr

/-- The `data` field of an inbound `message` event:
`{ source, type, payload }`. -/
structure MsgData where
  source : Option String := none
  type : Option String := none
  payload : Option FramePayload := none
deriving DecidableEq, Repr

/-- An inbound `message` event: the sending endpoint (`event.source`,
an opaque window handle), the live origin string (`event.origin`), and the
structured data. -/
structure MessageEvent where
  source : Option Nat := none
  origin : Option String := none
  data : Option MsgData := none
deriving DecidableEq, Repr

/-- The `frameInfo` lookup of `resolveTrackedFrame`:
`event?.source ? trackedFrameOrigins.get(event.source) : null`. -/
def sourceEntry (reg : Registry) (event : MessageEvent) : Option FrameInfo :=
  match event.source with
  | some src => lookupFrame reg src
  | none => none

/-- `resolveTrackedFrame(event)` from `src/message-security.js` lines 12-34:
reject when the source endpoint has no registry entry; reject when the
recorded origin and the event origin are both truthy and differ; otherwise
return the stored record. -/
def resolveTrackedFrame (reg : Registry) (event : MessageEvent) : Option FrameInfo :=
  match sourceEntry reg event with
  | none => none
  | some fi =>
    if truthyStr fi.origin && truthyStr event.origin && (fi.origin != event.origin)
    then none
    else some fi

/-- A normalized chat entry (spec §3 ChatEntry), as produced by
`normalizeHistoryEntry` / `getLatestAssistantEntry`.  That normalizer lives
in `chat-integration.js`, which is not part of the staged sources; entries
are therefore arbitrary values of this shape. -/
structure ChatEntry where
  role : String
  text : String
  signature : String
  name : Option String := none
  avatar : Option String := none
  attachments : Option (List String) := none
  authorId : Option String := none
  timestamp : Option ℚ := none
  isAssistant : Bool := false
deriving DecidableEq, Repr

/-- The process-wide `chatSyncState` of `src/index.js` lines 28-33. -/
structure ChatSyncState where
  lastSignature : Option String
  streamingBuffer : String
  streamingActive : Bool
  lastHistoryLength : Nat
deriving DecidableEq, Repr

/-- The host-side environment a handler call observes: the results of
`shouldStreamAssistantMessages` / `shouldShowTypingIndicator` /
`allowAutoreplies` (settings reads through `settings-utils.js`, not in the
staged sources, modelled as the booleans they return) and the result of
`getLatestAssistantEntry()` (which depends on the host chat log and
`normalizeHistoryEntry`).  By construction `getLatestAssistantEntry` only
returns entries whose normalized role is assistant. -/
structure HostEnv where
  enableStreaming : Bool := true
  showTypingIndicator : Bool := true
  enableAutoreplies : Bool := false
  latestAssistant : Option ChatEntry := none
deriving DecidableEq, Repr

/-- The mutable module state `handleFrameChatMessage` can touch: the trust
registry, `cachedWorldState`, and `chatSyncState`. -/
structure OrchState where
  registry : Registry
  cachedWorldState : Option FramePayload
  chatSync : ChatSyncState
deriving DecidableEq, Repr

/-- What one `handleFrameChatMessage` call emits besides its state: the text
handed to `pushMessageToSillyTavern` (if any) and whether the atmosphere
prompt was refreshed. -/
structure HandleOutput where
  pushedText : Option String := none
  atmosphereUpdated : Bool := false
deriving DecidableEq, Repr

/-- ASCII whitespace as JS `String.prototype.trim` and the regex class
match it (space, tab, LF, CR, VT, FF; further Unicode space code points are
outside the modelled alphabet). -/
def isJsSpace (c : Char) : Bool :=
  c = ' ' || c = '\t' || c = '\n' || c = '\r' || c.toNat = 11 || c.toNat = 12

/-- JS `text.trim()`. -/
def jsTrim (s : String) : String :=
  ⟨((s.data.dropWhile isJsSpace).reverse.dropWhile isJsSpace).reverse⟩

/-- The extension identifier, `EXTENSION_NAME = 'world-engine'`
(`src/extensions/world-engine/index.js` line 4; `index.js` imports the same
constant from `settings-utils.js`). -/
def EXTENSION_NAME : String := "world-engine"

/-- The text `handleFrameChatMessage` extracts from a chat payload:
`typeof payload.text === 'string' ? payload.text.trim() : ''`. -/
def payloadText (p : FramePayload) : String :=
  match p.text with
  | some (.vstr s) => jsTrim s
  | _ => ""

/-- `handleFrameChatMessage(event)` from `src/index.js` lines 509-534,
with `handleInteraction` (lines 536-540) inlined at its only call site.
`updateExtensionAtmospherePrompt` is recorded as the `atmosphereUpdated`
flag; `pushMessageToSillyTavern(text)` as `pushedText := some text`. -/
def handleFrameChatMessage (env : HostEnv) (st : OrchState) (event : MessageEvent) :
    OrchState × HandleOutput :=
  match event.data with
  | none => (st, {})
  | some d =>
    if d.source ≠ some EXTENSION_NAME then (st, {})
    else
      match resolveTrackedFrame st.registry event with
      | none => (st, {})
      | some _ =>
        if d.type = some "world-engine-state" then
          ({ st with cachedWorldState := d.payload }, { atmosphereUpdated := true })
        else if d.type = some "world-engine-interaction" then
          if (d.payload.bind FramePayload.target) = some "avatar" ∧
             (d.payload.bind FramePayload.action) = some "click" then
            (st, { pushedText := some "[System: You touch the avatar on the shoulder.]" })
          else (st, {})
        else if d.type ≠ some "world-engine-chat" then (st, {})
        else
          let text := payloadText (d.payload.getD {})
          if text = "" ∨ (d.payload.getD {}).direction ≠ some "outgoing" ∨
             env.enableAutoreplies = false then (st, {})
          else (st, { pushedText := some text })

/-- The result of one `buildHistorySnapshot` call (spec §4.3), built in
`chat-integration.js` (not in the staged sources): side-effect free with
respect to `ChatSyncState`, so a sync step takes it as an input. -/
structure Snapshot where
  history : List ChatEntry
  signature : String
deriving DecidableEq, Repr

/-- The outbound chat payload shape (spec §6), as assembled by
`syncChatHistory`, `broadcastAssistantPayload` and `broadcastTypingState`. -/
structure ChatPayloadOut where
  history : Option (List ChatEntry) := none
  text : Option String := none
  role : Option String := none
  direction : String
  signature : Option String := none
  name : Option String := none
  avatar : Option String := none
  typing : Option Bool := none
  overwrite : Option Bool := none
  attachments : Option (List String) := none
  authorId : Option String := none
  timestamp : Option ℚ := none
deriving DecidableEq, Repr

/-- `syncChatHistory` from `src/index.js` lines 282-312, relative to the
snapshot it awaited: skip (and leave the state alone) when both the
signature and the history length match the last broadcast values, otherwise
record them and broadcast the history payload. -/
def syncChatHistory (st : ChatSyncState) (snap : Snapshot) :
    ChatSyncState × Option ChatPayloadOut :=
  if st.lastSignature = some snap.signature ∧
     st.lastHistoryLength = snap.history.length then
    (st, none)
  else
    ({ st with lastSignature := some snap.signature,
               lastHistoryLength := snap.history.length },
     some { history := some snap.history, direction := "incoming",
            signature := some snap.signature })

/-- One element of the variadic `handleStreamToken(...args)` argument list:
a number, a string, an object (its `token` / `text` properties, with
`Option.none` standing for an absent, `undefined` or `null` property, the
three the `??` chain skips alike), or `null` (whose `typeof` is
`'object'`). -/
inductive TokenArg where
  | anum (q : ℚ)
  | astr (s : String)
  | aobj (token : Option String) (text : Option String)
  | anull
deriving DecidableEq, Repr

/-- Rendering of a JS number for `String(...)` / `Array.join`: exact for
integers; non-integral rationals keep a fraction form (no claim depends on
the decimal rendering of a numeric token). -/
def ratToJsString (q : ℚ) : String :=
  if q.den = 1 then toString q.num else toString q.num ++ "/" ++ toString q.den

/-- How `Array.prototype.join(' ')` renders one element (`null` and
`undefined` become the empty string). -/
def joinElem : TokenArg → String
  | .astr s => s
  | .anum q => ratToJsString q
  | .aobj _ _ => "[object Object]"
  | .anull => ""

/-- `String(args[1] ?? '')`: `null` (and a missing element) fall back to
the empty string; other values are stringified. -/
def positionalString : TokenArg → String
  | .anull => ""
  | .astr s => s
  | .anum q => ratToJsString q
  | .aobj _ _ => "[object Object]"

/-- `resolveTokenText(args)` from `src/index.js` lines 328-337: positional
index + text form, object `token`/`text` form, or the joined-arguments
fallback. -/
def resolveTokenText (args : List TokenArg) : String :=
  match args with
  | [] => ""
  | a0 :: rest =>
    match a0 with
    | .anum _ =>
      match rest with
      | [] => ""
      | a1 :: _ => positionalString a1
    | .anull => ""
    | .aobj token text => (token <|> text).getD ""
    | .astr _ => String.intercalate " " ((a0 :: rest).map joinElem)

/-- `broadcastAssistantPayload({ baseMessage, textOverride, overwrite })`
from `src/index.js` lines 372-397: falls back to the latest assistant entry,
refuses a non-assistant entry, otherwise assembles the payload.  Returns the
payload handed to `broadcastChatPayload`, or `none` when nothing is sent. -/
def broadcastAssistantPayload (env : HostEnv) (baseMessage : Option ChatEntry)
    (textOverride : Option String) (overwrite : Bool) : Option ChatPayloadOut :=
  match baseMessage <|> env.latestAssistant with
  | none => none
  | some n =>
    if n.role ≠ "assistant" ∧ n.isAssistant = false then none
    else
      some { text := some (textOverride.getD n.text), role := some "assistant",
             direction := "incoming", signature := some n.signature,
             name := n.name, avatar := n.avatar, overwrite := some overwrite,
             attachments := n.attachments, authorId := n.authorId,
             timestamp := n.timestamp }

/-- The overwrite payload `broadcastAssistantPayload` assembles for an
assistant entry with an overriding text (used to state what the streaming
and finalize broadcasts carry). -/
def assistantOverwrite (e : ChatEntry) (text : String) : ChatPayloadOut :=
  { text := some text, role := some "assistant", direction := "incoming",
    signature := some e.signature, name := e.name, avatar := e.avatar,
    overwrite := some true, attachments := e.attachments, authorId := e.authorId,
    timestamp := e.timestamp }

/-- `broadcastTypingState(isTyping)` from `src/index.js` lines 399-410:
nothing is sent when the typing-indicator feature is disabled. -/
def broadcastTypingState (env : HostEnv) (st : ChatSyncState) (isTyping : Bool) :
    Option ChatPayloadOut :=
  if env.showTypingIndicator = false then none
  else
    some { role := some "assistant", direction := "incoming",
           typing := some isTyping, signature := st.lastSignature }

/-- `handleStreamToken(...args)` from `src/index.js` lines 339-351: ignore
tokens while not streaming and tokens that resolve to empty text; otherwise
append to the buffer, refresh the last signature from history
(`refreshLastSignatureFromHistory`, lines 270-280, whose net effect is to
store the latest assistant entry's signature or `null`), and broadcast the
cumulative buffer as an overwrite payload for the latest assistant entry. -/
def handleStreamToken (env : HostEnv) (st : ChatSyncState) (args : List TokenArg) :
    ChatSyncState × Option ChatPayloadOut :=
  if st.streamingActive = false then (st, none)
  else
    let tokenText := resolveTokenText args
    if tokenText = "" then (st, none)
    else
      let st1 := { st with streamingBuffer := st.streamingBuffer ++ tokenText,
                           lastSignature := env.latestAssistant.map ChatEntry.signature }
      (st1, broadcastAssistantPayload env env.latestAssistant
              (some st1.streamingBuffer) true)

/-- Feeding a sequence of token events through `handleStreamToken`,
collecting the overwrite broadcasts that were actually emitted. -/
def runTokens (env : HostEnv) (st : ChatSyncState) :
    List (List TokenArg) → ChatSyncState × List ChatPayloadOut
  | [] => (st, [])
  | args :: rest =>
    let r1 := handleStreamToken env st args
    let r2 := runTokens env r1.1 rest
    (r2.1, r1.2.toList ++ r2.2)

/-- An argument of a `WorldCommand`: the weather preset string or the
parsed time number. -/
inductive CmdArg where
  | argStr (s : String)
  | argNum (q : ℚ)
deriving DecidableEq, Repr

/-- A structured world command (spec §3 WorldCommand), as passed to
`broadcastCommand`. -/
structure WorldCommand where
  command : String
  args : List CmdArg
deriving DecidableEq, Repr

/-- The characters of a string, lower-cased (the `/i` regex flag and
`toLowerCase` on the ASCII alphabet the commands use). -/
def lcChars (s : String) : List Char := s.data.map Char.toLower

/-- Strip a literal character sequence from the front of the input, or fail. -/
def dropLit : List Char → List Char → Option (List Char)
  | [], cs => some cs
  | _ :: _, [] => none
  | p :: ps, c :: cs => if c = p then dropLit ps cs else none

def isAsciiDigit (c : Char) : Bool := '0' ≤ c && c ≤ '9'

/-- The numeric value of a digit run. -/
def digitsToNat (ds : List Char) : Nat :=
  ds.foldl (fun n c => 10 * n + (c.toNat - 48)) 0

/-- One attempt of the regex matching `/weather` + `\s+` + `(clear|rainy|foggy)` (flag `i`) at a fixed
position of the (lower-cased) text: the literal `/weather`, one or more
whitespace characters, then one of the three presets. -/
def weatherAt (cs : List Char) : Option String :=
  match dropLit "/weather".data cs with
  | none => none
  | some rest =>
    if (rest.takeWhile isJsSpace).isEmpty then none
    else
      let rest2 := rest.dropWhile isJsSpace
      if (dropLit "clear".data rest2).isSome then some "clear"
      else if (dropLit "rainy".data rest2).isSome then some "rainy"
      else if (dropLit "foggy".data rest2).isSome then some "foggy"
      else none

/-- Leftmost match of the weather command pattern (`text.match` returns the
first match only). -/
def findWeatherCommand : List Char → Option String
  | [] => none
  | c :: cs =>
    match weatherAt (c :: cs) with
    | some w => some w
    | none => findWeatherCommand cs

/-- One attempt of the regex matching `/time` + `\s+` + a numeral
`\d+(\.\d+)?` (flag `i`) at a fixed position, returning `parseFloat` of the
captured numeral: the literal
`/time`, whitespace, a greedy digit run, and an optional `.` followed by at
least one digit (otherwise the fractional group simply does not
participate). -/
def timeAt (cs : List Char) : Option ℚ :=
  match dropLit "/time".data cs with
  | none => none
  | some rest =>
    if (rest.takeWhile isJsSpace).isEmpty then none
    else
      let rest2 := rest.dropWhile isJsSpace
      let ds := rest2.takeWhile isAsciiDigit
      if ds.isEmpty then none
      else
        match rest2.dropWhile isAsciiDigit with
        | '.' :: rest4 =>
          let fs := rest4.takeWhile isAsciiDigit
          if fs.isEmpty then some (digitsToNat ds)
          else some ((digitsToNat ds : ℚ) + (digitsToNat fs : ℚ) / (10 : ℚ) ^ fs.length)
        | _ => some (digitsToNat ds)

/-- Leftmost match of the time command pattern. -/
def findTimeCommand : List Char → Option ℚ
  | [] => none
  | c :: cs =>
    match timeAt (c :: cs) with
    | some t => some t
    | none => findTimeCommand cs

/-- `checkForWorldCommands(text)` from `src/index.js` lines 435-453: a falsy
(empty) text yields nothing; otherwise the first weather match and the
first time match each dispatch one command via `broadcastCommand`.  The
returned list holds the dispatched commands in dispatch order. -/
def checkForWorldCommands (text : String) : List WorldCommand :=
  if text = "" then []
  else
    let cs := lcChars text
    (match findWeatherCommand cs with
     | some w => [{ command := "weather", args := [.argStr w] }]
     | none => []) ++
    (match findTimeCommand cs with
     | some t => [{ command := "time", args := [.argNum t] }]
     | none => [])

/-- What one `handleMessageFinished` call emits: the authoritative final
overwrite broadcast (if any), the dispatched world commands, the
typing-off broadcast (if the feature is enabled), and the trailing
`syncChatHistory()` trigger. -/
structure FinishOut where
  finalBroadcast : Option ChatPayloadOut
  commands : List WorldCommand
  typingBroadcast : Option ChatPayloadOut
  syncRequested : Bool
deriving DecidableEq, Repr

/-- `handleMessageFinished()` from `src/index.js` lines 353-370: with a
non-empty buffer, rebroadcast it as the final overwrite text and extract
commands from it; otherwise extract commands from the latest assistant
entry's text when that entry exists and has text.  Always turn the typing
indicator off, clear the streaming state, and request a snapshot sync. -/
def handleMessageFinished (env : HostEnv) (st : ChatSyncState) :
    ChatSyncState × FinishOut :=
  let bc :=
    if st.streamingBuffer ≠ "" then
      (broadcastAssistantPayload env none (some st.streamingBuffer) true,
       checkForWorldCommands st.streamingBuffer)
    else
      match env.latestAssistant with
      | some e =>
        if e.text ≠ "" then ((none : Option ChatPayloadOut), checkForWorldCommands e.text)
        else (none, [])
      | none => (none, [])
  ({ st with streamingActive := false, streamingBuffer := "" },
   { finalBroadcast := bc.1, commands := bc.2,
     typingBroadcast := broadcastTypingState env st false, syncRequested := true })

/-- The result of JS `Number(value)` coercion on a raw settings field:
a finite rational, or `nonfinite` for anything `Number.isFinite` rejects
(`NaN`, `±Infinity`, non-numeric strings, objects, ...). -/
inductive JsNum where
  | fin (q : ℚ)
  | nonfinite
deriving DecidableEq, Repr

/-- Modelled from the spec: the `DEFAULT_SETTINGS` record lives in
`settings-utils.js`, which is not among the staged sources.  Spec §4.2 only
says each field has "its default", so the defaults are abstract values of
the right type, constrained to their valid domains (`defaultsValid`) where
a claim needs that. -/
structure DefaultSettings where
  timeOfDay : ℚ
  weather : String
  cameraFov : ℚ
  mouseSensitivity : ℚ
  renderScale : ℚ
  rainIntensity : ℚ
  fogDensity : ℚ
  cloudDensity : ℚ
  cloudSpeed : ℚ
  enableStreaming : Bool
  showTypingIndicator : Bool
  enableAutoreplies : Bool
  shadowsEnabled : Bool
  showChatBubbles : Bool
  cloudsEnabled : Bool
deriving DecidableEq, Repr

/-- A persisted settings record as `normalizeAtmosphereSettings` reads it:
each field is absent (`none`, covering the `??` fallback for
`undefined`/`null`) or present with the listed coercion behaviour.  Numeric
fields carry their `Number(...)` image; `weather` its raw value (the code
performs a `typeof` string test); boolean fields the truthiness
`Boolean(...)` would compute. -/
structure RawAtmosphereSettings where
  timeOfDay : Option JsNum := none
  weather : Option JVal := none
  cameraFov : Option JsNum := none
  mouseSensitivity : Option JsNum := none
  renderScale : Option JsNum := none
  rainIntensity : Option JsNum := none
  fogDensity : Option JsNum := none
  cloudDensity : Option JsNum := none
  cloudSpeed : Option JsNum := none
  enableStreaming : Option Bool := none
  showTypingIndicator : Option Bool := none
  enableAutoreplies : Option Bool := none
  shadowsEnabled : Option Bool := none
  showChatBubbles : Option Bool := none
  cloudsEnabled : Option Bool := none
deriving DecidableEq, Repr

/-- The fully normalized atmosphere settings (spec §3
AtmosphereSettings). -/
structure AtmosphereSettings where
  timeOfDay : ℚ
  weather : String
  cameraFov : ℚ
  mouseSensitivity : ℚ
  renderScale : ℚ
  rainIntensity : ℚ
  fogDensity : ℚ
  cloudDensity : ℚ
  cloudSpeed : ℚ
  enableStreaming : Bool
  showTypingIndicator : Bool
  enableAutoreplies : Bool
  shadowsEnabled : Bool
  showChatBubbles : Bool
  cloudsEnabled : Bool
deriving DecidableEq, Repr

/-- `clampInRange(value, [min, max], fallback)` from `src/index.js` lines
71-75: the fallback for a non-finite coercion, otherwise
`Math.min(max, Math.max(min, numeric))`. -/
def clampInRange (value : JsNum) (lo hi fallback : ℚ) : ℚ :=
  match value with
  | .nonfinite => fallback
  | .fin q => min hi (max lo q)

/-- `clampTimeOfDayValue(value)` from `src/index.js` lines 63-69: default
on a non-finite coercion, otherwise clamp into `[0, 24]` and fold `24` to
`0`. -/
def clampTimeOfDayValue (dflt : ℚ) (value : JsNum) : ℚ :=
  match value with
  | .nonfinite => dflt
  | .fin q =>
    let clamped := min 24 (max 0 q)
    if clamped = 24 then 0 else clamped

/-- `WEATHER_PRESETS` from `src/index.js` line 61. -/
def WEATHER_PRESETS : List String := ["clear", "foggy", "rainy"]

/-- ASCII `toLowerCase`. -/
def lowerStr (s : String) : String := ⟨s.data.map Char.toLower⟩

/-- `normalizeWeatherValue(value)` from `src/index.js` lines 133-137:
non-strings fall back to the default preset; strings are lower-cased and
matched against `WEATHER_PRESETS`. -/
def normalizeWeatherValue (dflt : String) (value : JVal) : String :=
  match value with
  | .vstr s =>
    let normalized := lowerStr s
    if normalized ∈ WEATHER_PRESETS then normalized else dflt
  | _ => dflt

def clampFovValue (d : DefaultSettings) (v : JsNum) : ℚ :=
  clampInRange v 40 100 d.cameraFov

def clampMouseSensitivity (d : DefaultSettings) (v : JsNum) : ℚ :=
  clampInRange v (1/5) 3 d.mouseSensitivity

def clampRenderScale (d : DefaultSettings) (v : JsNum) : ℚ :=
  clampInRange v (1/2) (3/2) d.renderScale

def clampRainIntensity (d : DefaultSettings) (v : JsNum) : ℚ :=
  clampInRange v 0 2 d.rainIntensity

def clampFogDensity (d : DefaultSettings) (v : JsNum) : ℚ :=
  clampInRange v (1/5) 3 d.fogDensity

def clampCloudDensity (d : DefaultSettings) (v : JsNum) : ℚ :=
  clampInRange v 0 2 d.cloudDensity

def clampCloudSpeed (d : DefaultSettings) (v : JsNum) : ℚ :=
  clampInRange v 0 2 d.cloudSpeed

/-- `normalizeAtmosphereSettings(settings)` from `src/index.js` lines
160-178 (the non-null branch; the function mutates and returns its
argument, modelled functionally): every field is read through
`?? DEFAULT_SETTINGS.field` and then clamped/coerced. -/
def normalizeAtmosphereSettings (d : DefaultSettings) (s : RawAtmosphereSettings) :
    AtmosphereSettings :=
  { timeOfDay := clampTimeOfDayValue d.timeOfDay (s.timeOfDay.getD (.fin d.timeOfDay))
  , weather := normalizeWeatherValue d.weather (s.weather.getD (.vstr d.weather))
  , cameraFov := clampFovValue d (s.cameraFov.getD (.fin d.cameraFov))
  , mouseSensitivity := clampMouseSensitivity d (s.mouseSensitivity.getD (.fin d.mouseSensitivity))
  , renderScale := clampRenderScale d (s.renderScale.getD (.fin d.renderScale))
  , rainIntensity := clampRainIntensity d (s.rainIntensity.getD (.fin d.rainIntensity))
  , fogDensity := clampFogDensity d (s.fogDensity.getD (.fin d.fogDensity))
  , cloudDensity := clampCloudDensity d (s.cloudDensity.getD (.fin d.cloudDensity))
  , cloudSpeed := clampCloudSpeed d (s.cloudSpeed.getD (.fin d.cloudSpeed))
  , enableStreaming := s.enableStreaming.getD d.enableStreaming
  , showTypingIndicator := s.showTypingIndicator.getD d.showTypingIndicator
  , enableAutoreplies := s.enableAutoreplies.getD d.enableAutoreplies
  , shadowsEnabled := s.shadowsEnabled.getD d.shadowsEnabled
  , showChatBubbles := s.showChatBubbles.getD d.showChatBubbles
  , cloudsEnabled := s.cloudsEnabled.getD d.cloudsEnabled }

/-- The defaults lie in their valid domains (spec §3: every field has a
defined valid range; the shipped defaults are valid values). -/
def defaultsValid (d : DefaultSettings) : Prop :=
  (0 ≤ d.timeOfDay ∧ d.timeOfDay < 24) ∧
  d.weather ∈ WEATHER_PRESETS ∧
  (40 ≤ d.cameraFov ∧ d.cameraFov ≤ 100) ∧
  (1/5 ≤ d.mouseSensitivity ∧ d.mouseSensitivity ≤ 3) ∧
  (1/2 ≤ d.renderScale ∧ d.renderScale ≤ 3/2) ∧
  (0 ≤ d.rainIntensity ∧ d.rainIntensity ≤ 2) ∧
  (1/5 ≤ d.fogDensity ∧ d.fogDensity ≤ 3) ∧
  (0 ≤ d.cloudDensity ∧ d.cloudDensity ≤ 2) ∧
  (0 ≤ d.cloudSpeed ∧ d.cloudSpeed ≤ 2)

/-! ## Theorems -/

/-- Claim C1 as stated: resolution fails iff the endpoint is unregistered,
or the registry entry records a non-null expected origin that differs from
the event's origin. -/
def claimC1 : Prop :=
  ∀ (reg : Registry) (event : MessageEvent),
    resolveTrackedFrame reg event = none ↔
      (sourceEntry reg event = none ∨
       ∃ fi, sourceEntry reg event = some fi ∧ fi.origin ≠ none ∧
         fi.origin ≠ event.origin)

/-- C1 (counterexample).  Claim C1 is false on the code: register endpoint
0 with the non-null origin "https://a" and deliver an event from endpoint 0
whose origin is the empty string.  The recorded origin is non-null and
differs from the event's origin, so the claim demands rejection — but the
empty string is falsy, `frameInfo.origin && event?.origin && ...` skips the
comparison, and the code returns the stored record. -/
theorem C1_counterexample : ¬ claimC1 := by
  intro h
  have hnone := (h [(0, ⟨some "https://a", none⟩)] ⟨some 0, some "", none⟩).mpr
    (Or.inr ⟨⟨some "https://a", none⟩, rfl, by decide, by decide⟩)
  exact absurd hnone (by decide)

/-- C1 (amended).  For every inbound event, `resolveTrackedFrame` returns
null iff the source endpoint has no trust-registry entry, or the entry's
recorded origin is truthy (non-null and non-empty), the event's origin is
truthy, and the two differ; in every other case — including a null or
empty recorded origin and a null/absent/empty event origin — it returns
the stored trust record. -/
theorem C1_amended (reg : Registry) (event : MessageEvent) :
    (resolveTrackedFrame reg event = none ↔
      (sourceEntry reg event = none ∨
       ∃ fi, sourceEntry reg event = some fi ∧ truthyStr fi.origin = true ∧
         truthyStr event.origin = true ∧ fi.origin ≠ event.origin)) ∧
    (∀ fi, sourceEntry reg event = some fi →
       resolveTrackedFrame reg event ≠ none →
       resolveTrackedFrame reg event = some fi) := by
  constructor
  · cases hse : sourceEntry reg event with
    | none => simp [resolveTrackedFrame, hse]
    | some fi =>
      by_cases hfo : truthyStr fi.origin = true <;>
        by_cases heo : truthyStr event.origin = true <;>
          by_cases hne : fi.origin = event.origin <;>
            simp [resolveTrackedFrame, hse, hfo, heo, hne, bne_iff_ne,
              Bool.not_eq_true] at *
  · intro fi hse hne
    rw [resolveTrackedFrame, hse] at hne ⊢
    by_cases hc : (truthyStr fi.origin && truthyStr event.origin &&
        (fi.origin != event.origin)) = true
    · exact absurd (by simp [hc]) hne
    · simp [hc]

/-- C10.  An endpoint registered with a non-null expected origin still
resolves successfully for an event whose origin is absent/null or the
empty string: the origin comparison only runs when both sides are truthy,
so a falsy incoming origin bypasses the mismatch rejection, while the
endpoint-registration requirement still applies. -/
theorem C10_falsy_event_origin_accepted (reg : Registry) (w : Nat) (fi : FrameInfo)
    (event : MessageEvent) (hreg : lookupFrame reg w = some fi)
    (_hnonnull : fi.origin ≠ none) (hsrc : event.source = some w)
    (hfalsy : truthyStr event.origin = false) :
    resolveTrackedFrame reg event = some fi := by
  have hse : sourceEntry reg event = some fi := by
    rw [sourceEntry, hsrc]
    exact hreg
  simp [resolveTrackedFrame, hse, hfalsy]

/-- C10 (witness): endpoint 0 registered with origin "https://a"; an event
from endpoint 0 with a null origin is accepted. -/
theorem C10_witness :
    resolveTrackedFrame [(0, ⟨some "https://a", none⟩)] ⟨some 0, none, none⟩ =
      some ⟨some "https://a", none⟩ :=
  C10_falsy_event_origin_accepted [(0, ⟨some "https://a", none⟩)] 0
    ⟨some "https://a", none⟩ ⟨some 0, none, none⟩ (by decide) (by decide)
    (by decide) (by decide)

/-- C2.  Processing an inbound message never mutates the frame-trust
registry: `handleFrameChatMessage` preserves the registry on every path;
a message whose frame does not resolve leaves the whole state unchanged
and produces no output; and an endpoint with no registry entry (or an
absent source) never resolves, regardless of the message's shape — so
trust can only be created by an explicit `rememberFrameOrigin` call. -/
theorem C2_registry_immutable (env : HostEnv) (st : OrchState) (event : MessageEvent) :
    ((handleFrameChatMessage env st event).1.registry = st.registry) ∧
    (resolveTrackedFrame st.registry event = none →
       handleFrameChatMessage env st event = (st, {})) ∧
    (∀ w, event.source = some w → lookupFrame st.registry w = none →
       resolveTrackedFrame st.registry event = none) ∧
    (event.source = none → resolveTrackedFrame st.registry event = none) := by
  refine ⟨?_, ?_, ?_, ?_⟩
  · cases hd : event.data with
    | none => simp [handleFrameChatMessage, hd]
    | some d =>
      rw [handleFrameChatMessage, hd]
      dsimp only
      repeat' split
      all_goals rfl
  · intro h
    cases hd : event.data with
    | none => simp [handleFrameChatMessage, hd]
    | some d =>
      rw [handleFrameChatMessage, hd]
      dsimp only
      split
      · rfl
      · rw [h]
  · intro w hw hlk
    simp [resolveTrackedFrame, sourceEntry, hw, hlk]
  · intro h
    simp [resolveTrackedFrame, sourceEntry, h]

/-- C9.  A trusted inbound `world-engine-chat` message is forwarded to
`pushMessageToSillyTavern` iff its payload text is a string that trims to a
non-empty value, its direction is `outgoing`, and `enableAutoreplies` is
on; in every other case nothing is pushed, and in all cases the orchestrator
state (registry, cached world state, chat-sync state) is untouched. -/
theorem C9_autoreply_gating (env : HostEnv) (st : OrchState) (event : MessageEvent)
    (d : MsgData) (hd : event.data = some d)
    (hsrc : d.source = some EXTENSION_NAME)
    (htype : d.type = some "world-engine-chat")
    (htrust : resolveTrackedFrame st.registry event ≠ none) :
    ((handleFrameChatMessage env st event).2.pushedText =
      if payloadText (d.payload.getD {}) ≠ "" ∧
         (d.payload.getD {}).direction = some "outgoing" ∧
         env.enableAutoreplies = true
      then some (payloadText (d.payload.getD {})) else none) ∧
    (handleFrameChatMessage env st event).1 = st ∧
    (handleFrameChatMessage env st event).2.atmosphereUpdated = false := by
  cases hr : resolveTrackedFrame st.registry event with
  | none => exact absurd hr htrust
  | some fi =>
    by_cases hc : payloadText (d.payload.getD {}) = "" ∨
        (d.payload.getD {}).direction ≠ some "outgoing" ∨
        env.enableAutoreplies = false
    · have hneg : ¬(payloadText (d.payload.getD {}) ≠ "" ∧
          (d.payload.getD {}).direction = some "outgoing" ∧
          env.enableAutoreplies = true) := by
        rintro ⟨h1, h2, h3⟩
        rcases hc with h | h | h
        · exact h1 h
        · exact h h2
        · simp [h3] at h
      simp [handleFrameChatMessage, hd, hsrc, htype, hr, hc, hneg]
    · push_neg at hc
      have hpos : payloadText (d.payload.getD {}) ≠ "" ∧
          (d.payload.getD {}).direction = some "outgoing" ∧
          env.enableAutoreplies = true := by
        refine ⟨hc.1, hc.2.1, ?_⟩
        cases henv : env.enableAutoreplies
        · exact absurd henv hc.2.2
        · rfl
      have hcond : ¬(payloadText (d.payload.getD {}) = "" ∨
          (d.payload.getD {}).direction ≠ some "outgoing" ∨
          env.enableAutoreplies = false) := by
        push_neg
        exact ⟨hpos.1, hpos.2.1, by simp [hpos.2.2]⟩
      simp [handleFrameChatMessage, hd, hsrc, htype, hr, hcond, hpos]

/-- C9 (witness): with autoreplies enabled and a trusted frame, the
outgoing payload text "  hi  " is trimmed and pushed. -/
theorem C9_witness :
    (handleFrameChatMessage { enableAutoreplies := true }
       ⟨[(0, ⟨none, none⟩)], none, ⟨none, "", false, 0⟩⟩
       ⟨some 0, none, some ⟨some "world-engine", some "world-engine-chat",
          some ⟨some (.vstr "  hi  "), some "outgoing", none, none⟩⟩⟩).2.pushedText =
      some "hi" := by
  have h := C9_autoreply_gating { enableAutoreplies := true }
      ⟨[(0, ⟨none, none⟩)], none, ⟨none, "", false, 0⟩⟩
      ⟨some 0, none, some ⟨some "world-engine", some "world-engine-chat",
         some ⟨some (.vstr "  hi  "), some "outgoing", none, none⟩⟩⟩
      ⟨some "world-engine", some "world-engine-chat",
         some ⟨some (.vstr "  hi  "), some "outgoing", none, none⟩⟩
      rfl rfl rfl (by decide)
  exact h.1.trans (by decide)

/-- C5.  A snapshot sync skips the broadcast — sending nothing and leaving
the sync state unchanged — exactly when the snapshot's signature equals
`lastSignature` and its history length equals `lastHistoryLength`; and a
second sync of the same snapshot (an unchanged host log) never broadcasts,
so two consecutive syncs produce at most one broadcast. -/
theorem C5_snapshot_dedup (st : ChatSyncState) (snap : Snapshot) :
    ((syncChatHistory st snap).2 = none ↔
       (st.lastSignature = some snap.signature ∧
        st.lastHistoryLength = snap.history.length)) ∧
    ((syncChatHistory st snap).2 = none → (syncChatHistory st snap).1 = st) ∧
    ((syncChatHistory (syncChatHistory st snap).1 snap).2 = none) := by
  by_cases hc : st.lastSignature = some snap.signature ∧
      st.lastHistoryLength = snap.history.length
  · simp [syncChatHistory, hc]
  · simp [syncChatHistory, hc]

/-- C6.  While a stream is active and a latest assistant entry exists,
every token event whose resolved text is non-empty appends that text to
the buffer (and refreshes the last signature from history) and emits
exactly one overwrite broadcast carrying the full cumulative buffer; a
token resolving to empty text changes nothing and broadcasts nothing; and
the token sequence ["Hel", "lo, ", "world"] from an empty buffer yields
the final buffer "Hello, world" and three successive overwrite broadcasts
with the cumulative texts "Hel", "Hello, ", "Hello, world". -/
theorem C6_streaming_accumulation (env : HostEnv) (st : ChatSyncState) (e : ChatEntry)
    (hact : st.streamingActive = true)
    (he : env.latestAssistant = some e)
    (hrole : e.role = "assistant") :
    (∀ args, resolveTokenText args = "" → handleStreamToken env st args = (st, none)) ∧
    (∀ args, resolveTokenText args ≠ "" →
       handleStreamToken env st args =
         ({ st with streamingBuffer := st.streamingBuffer ++ resolveTokenText args,
                    lastSignature := some e.signature },
          some (assistantOverwrite e (st.streamingBuffer ++ resolveTokenText args)))) ∧
    (st.streamingBuffer = "" →
       runTokens env st [[.astr "Hel"], [.astr "lo, "], [.astr "world"]] =
         ({ st with streamingBuffer := "Hello, world",
                    lastSignature := some e.signature },
          [assistantOverwrite e "Hel", assistantOverwrite e "Hello, ",
           assistantOverwrite e "Hello, world"])) := by
  refine ⟨?_, ?_, ?_⟩
  · intro args h
    simp [handleStreamToken, hact, h]
  · intro args h
    simp [handleStreamToken, hact, h, broadcastAssistantPayload, he, hrole,
      assistantOverwrite]
  · intro hbuf
    have t1 : resolveTokenText [.astr "Hel"] = "Hel" := rfl
    have t2 : resolveTokenText [.astr "lo, "] = "lo, " := rfl
    have t3 : resolveTokenText [.astr "world"] = "world" := rfl
    have a1 : ("" : String) ++ "Hel" = "Hel" := rfl
    have a2 : ("Hel" : String) ++ "lo, " = "Hello, " := rfl
    have a3 : ("Hello, " : String) ++ "world" = "Hello, world" := rfl
    simp [runTokens, handleStreamToken, hact, t1, t2, t3, hbuf, a1, a2, a3,
      broadcastAssistantPayload, he, hrole, assistantOverwrite]

/-- C6 (witness): a concrete active stream over an assistant entry with
signature "sig0" accumulates "Hello, world". -/
theorem C6_witness :
    (runTokens
       ⟨true, true, false, some ⟨"assistant", "", "sig0", none, none, none, none, none, false⟩⟩
       ⟨none, "", true, 0⟩
       [[.astr "Hel"], [.astr "lo, "], [.astr "world"]]).1.streamingBuffer =
      "Hello, world" := by
  have h := C6_streaming_accumulation
    ⟨true, true, false, some ⟨"assistant", "", "sig0", none, none, none, none, none, false⟩⟩
    ⟨none, "", true, 0⟩
    ⟨"assistant", "", "sig0", none, none, none, none, none, false⟩
    rfl rfl rfl
  rw [h.2.2 rfl]

/-- Claim C7's unconditional rebroadcast clause: whenever the streaming
buffer is non-empty, finalize broadcasts it once more. -/
def c7BufferAlwaysRebroadcast : Prop :=
  ∀ (env : HostEnv) (st : ChatSyncState), st.streamingBuffer ≠ "" →
    (handleMessageFinished env st).2.finalBroadcast ≠ none

/-- C7 (counterexample).  The rebroadcast clause of claim C7 is false on
the code: with a non-empty buffer "hi" but no latest assistant entry in the
history, `broadcastAssistantPayload` finds no entry to address and returns
without emitting anything, so finalize broadcasts nothing. -/
theorem C7_counterexample : ¬ c7BufferAlwaysRebroadcast := by
  intro h
  exact h {} ⟨none, "hi", true, 0⟩ (by decide) (by decide)

/-- C7 (amended).  On finalize: the typing indicator is turned off (a
typing-false broadcast whenever the indicator feature is enabled),
streaming becomes inactive, the buffer is cleared, the dedup state is
untouched, and a snapshot sync is requested.  If the buffer is non-empty,
command extraction runs over the buffer text, and the buffer is broadcast
once more as an overwrite payload provided a latest assistant entry exists
(with no such entry nothing is broadcast); otherwise command extraction
runs over the latest assistant entry's own text when that entry exists and
has text — in particular, with no streamed tokens and a latest assistant
entry whose text is "The weather is /weather rainy today", finalize emits
exactly one weather command with arg "rainy". -/
theorem C7_finalize (env : HostEnv) (st : ChatSyncState) :
    ((handleMessageFinished env st).1.streamingActive = false) ∧
    ((handleMessageFinished env st).1.streamingBuffer = "") ∧
    ((handleMessageFinished env st).1.lastSignature = st.lastSignature) ∧
    ((handleMessageFinished env st).1.lastHistoryLength = st.lastHistoryLength) ∧
    ((handleMessageFinished env st).2.syncRequested = true) ∧
    ((handleMessageFinished env st).2.typingBroadcast =
       if env.showTypingIndicator = true then
         some { role := some "assistant", direction := "incoming",
                typing := some false, signature := st.lastSignature }
       else none) ∧
    (st.streamingBuffer ≠ "" →
       (handleMessageFinished env st).2.commands =
         checkForWorldCommands st.streamingBuffer) ∧
    (∀ e, st.streamingBuffer ≠ "" → env.latestAssistant = some e →
       e.role = "assistant" →
       (handleMessageFinished env st).2.finalBroadcast =
         some (assistantOverwrite e st.streamingBuffer)) ∧
    (st.streamingBuffer ≠ "" → env.latestAssistant = none →
       (handleMessageFinished env st).2.finalBroadcast = none) ∧
    (st.streamingBuffer = "" →
       (handleMessageFinished env st).2.finalBroadcast = none) ∧
    (∀ e, st.streamingBuffer = "" → env.latestAssistant = some e → e.text ≠ "" →
       (handleMessageFinished env st).2.commands = checkForWorldCommands e.text) ∧
    (st.streamingBuffer = "" → env.latestAssistant = none →
       (handleMessageFinished env st).2.commands = []) ∧
    (∀ e, st.streamingBuffer = "" → env.latestAssistant = some e →
       e.text = "The weather is /weather rainy today" →
       (handleMessageFinished env st).2.commands =
         [{ command := "weather", args := [.argStr "rainy"] }]) := by
  refine ⟨?_, ?_, ?_, ?_, ?_, ?_, ?_, ?_, ?_, ?_, ?_, ?_, ?_⟩
  · simp [handleMessageFinished]
  · simp [handleMessageFinished]
  · simp [handleMessageFinished]
  · simp [handleMessageFinished]
  · simp [handleMessageFinished]
  · cases henv : env.showTypingIndicator <;>
      simp [handleMessageFinished, broadcastTypingState, henv]
  · intro hb
    simp [handleMessageFinished, hb]
  · intro e hb he hrole
    simp [handleMessageFinished, hb, broadcastAssistantPayload, he, hrole,
      assistantOverwrite]
  · intro hb he
    simp [handleMessageFinished, hb, broadcastAssistantPayload, he]
  · intro hb
    cases he : env.latestAssistant with
    | none => simp [handleMessageFinished, hb, he]
    | some e =>
      by_cases ht : e.text = "" <;> simp [handleMessageFinished, hb, he, ht]
  · intro e hb he ht
    simp [handleMessageFinished, hb, he, ht]
  · intro hb he
    simp [handleMessageFinished, hb, he]
  · intro e hb he ht
    simp [handleMessageFinished, hb, he, ht]
    decide

/-- Behaviour of one numeric settings field read through
`?? fallback` and `clampInRange`: a finite raw value is clamped, a
non-finite or absent one yields the fallback, and the result lies in the
range whenever the fallback does. -/
theorem clampInRange_spec (lo hi fallback : ℚ) (hlo : lo ≤ hi)
    (hfb1 : lo ≤ fallback) (hfb2 : fallback ≤ hi) (v : Option JsNum) :
    (∀ q, v = some (.fin q) →
       clampInRange (v.getD (.fin fallback)) lo hi fallback = min hi (max lo q)) ∧
    ((v = some .nonfinite ∨ v = none) →
       clampInRange (v.getD (.fin fallback)) lo hi fallback = fallback) ∧
    (lo ≤ clampInRange (v.getD (.fin fallback)) lo hi fallback ∧
     clampInRange (v.getD (.fin fallback)) lo hi fallback ≤ hi) := by
  have hfb : min hi (max lo fallback) = fallback := by
    rw [max_eq_right hfb1, min_eq_right hfb2]
  have hbounds : ∀ q, lo ≤ min hi (max lo q) ∧ min hi (max lo q) ≤ hi := fun q =>
    ⟨le_min hlo (le_max_left lo q), min_le_left hi (max lo q)⟩
  refine ⟨?_, ?_, ?_⟩
  · intro q hq
    rw [hq]
    rfl
  · rintro (h | h) <;> rw [h]
    · rfl
    · simpa [clampInRange] using hfb
  · cases v with
    | none => simpa [clampInRange, hfb] using ⟨hfb1, hfb2⟩
    | some jn =>
      cases jn with
      | fin q => simpa [clampInRange] using hbounds q
      | nonfinite => exact ⟨hfb1, hfb2⟩

/-- Bounds of the normalized time of day when the default is valid. -/
theorem clampTimeOfDay_bounds (dflt : ℚ) (h0 : 0 ≤ dflt) (h24 : dflt < 24)
    (v : JsNum) :
    0 ≤ clampTimeOfDayValue dflt v ∧ clampTimeOfDayValue dflt v < 24 := by
  cases v with
  | nonfinite => exact ⟨h0, h24⟩
  | fin q =>
    simp only [clampTimeOfDayValue]
    by_cases hc : min 24 (max 0 q) = 24
    · simp only [hc, if_pos rfl]
      exact ⟨le_refl 0, by norm_num⟩
    · simp only [if_neg hc]
      exact ⟨le_min (by norm_num) (le_max_left 0 q),
        lt_of_le_of_ne (min_le_left _ _) hc⟩

/-- Claim C3's numeric clause as stated (instantiated at the camera FOV
field): the normalized value equals the default whenever the raw value is
not a finite number inside the closed range. -/
def c3FiniteOutOfRangeClaim : Prop :=
  ∀ (d : DefaultSettings) (s : RawAtmosphereSettings) (q : ℚ),
    s.cameraFov = some (.fin q) → ¬(40 ≤ q ∧ q ≤ 100) →
    (normalizeAtmosphereSettings d s).cameraFov = d.cameraFov

/-- C3 (counterexample).  Claim C3 is false on the code: a finite raw FOV
of 150 is outside [40, 100], so the claim demands the default — but
`clampInRange` only falls back on a non-finite coercion and clamps 150 to
the bound 100 (with the defaults instantiated at FOV 75, the claim would
force 100 = 75). -/
theorem C3_counterexample : ¬ c3FiniteOutOfRangeClaim := by
  intro h
  have h1 := h ⟨12, "clear", 75, 1, 1, 1, 1, 1, 1, false, false, false, false,
      false, false⟩ { cameraFov := some (.fin 150) } 150 rfl (by norm_num)
  have h2 : (normalizeAtmosphereSettings ⟨12, "clear", 75, 1, 1, 1, 1, 1, 1,
      false, false, false, false, false, false⟩
      { cameraFov := some (.fin 150) }).cameraFov = 100 := by decide
  rw [h1] at h2
  norm_num at h2

/-- C3 (amended).  For valid defaults, `normalizeAtmosphereSettings` maps
every numeric atmosphere field to its default exactly when the raw value
coerces to a non-finite number (or is absent); a finite raw value is
clamped to its closed range ([40,100], [0.2,3], [0.5,1.5], [0,2], [0.2,3],
[0,2], [0,2] for FOV, mouse sensitivity, render scale, rain intensity, fog
density, cloud density, cloud speed), and the result always lies in that
range; weather equals the lower-cased input when it case-insensitively
matches one of the presets clear/foggy/rainy and the default preset for
any other or non-string input, the result always being a preset; every
boolean field takes its truthiness-coerced value, defaulting when
absent. -/
theorem C3_amended (d : DefaultSettings) (hd : defaultsValid d)
    (s : RawAtmosphereSettings) :
    ((∀ q, s.cameraFov = some (.fin q) →
        (normalizeAtmosphereSettings d s).cameraFov = min 100 (max 40 q)) ∧
     ((s.cameraFov = some .nonfinite ∨ s.cameraFov = none) →
        (normalizeAtmosphereSettings d s).cameraFov = d.cameraFov) ∧
     (40 ≤ (normalizeAtmosphereSettings d s).cameraFov ∧
      (normalizeAtmosphereSettings d s).cameraFov ≤ 100)) ∧
    ((∀ q, s.mouseSensitivity = some (.fin q) →
        (normalizeAtmosphereSettings d s).mouseSensitivity = min 3 (max (1/5) q)) ∧
     ((s.mouseSensitivity = some .nonfinite ∨ s.mouseSensitivity = none) →
        (normalizeAtmosphereSettings d s).mouseSensitivity = d.mouseSensitivity) ∧
     (1/5 ≤ (normalizeAtmosphereSettings d s).mouseSensitivity ∧
      (normalizeAtmosphereSettings d s).mouseSensitivity ≤ 3)) ∧
    ((∀ q, s.renderScale = some (.fin q) →
        (normalizeAtmosphereSettings d s).renderScale = min (3/2) (max (1/2) q)) ∧
     ((s.renderScale = some .nonfinite ∨ s.renderScale = none) →
        (normalizeAtmosphereSettings d s).renderScale = d.renderScale) ∧
     (1/2 ≤ (normalizeAtmosphereSettings d s).renderScale ∧
      (normalizeAtmosphereSettings d s).renderScale ≤ 3/2)) ∧
    ((∀ q, s.rainIntensity = some (.fin q) →
        (normalizeAtmosphereSettings d s).rainIntensity = min 2 (max 0 q)) ∧
     ((s.rainIntensity = some .nonfinite ∨ s.rainIntensity = none) →
        (normalizeAtmosphereSettings d s).rainIntensity = d.rainIntensity) ∧
     (0 ≤ (normalizeAtmosphereSettings d s).rainIntensity ∧
      (normalizeAtmosphereSettings d s).rainIntensity ≤ 2)) ∧
    ((∀ q, s.fogDensity = some (.fin q) →
        (normalizeAtmosphereSettings d s).fogDensity = min 3 (max (1/5) q)) ∧
     ((s.fogDensity = some .nonfinite ∨ s.fogDensity = none) →
        (normalizeAtmosphereSettings d s).fogDensity = d.fogDensity) ∧
     (1/5 ≤ (normalizeAtmosphereSettings d s).fogDensity ∧
      (normalizeAtmosphereSettings d s).fogDensity ≤ 3)) ∧
    ((∀ q, s.cloudDensity = some (.fin q) →
        (normalizeAtmosphereSettings d s).cloudDensity = min 2 (max 0 q)) ∧
     ((s.cloudDensity = some .nonfinite ∨ s.cloudDensity = none) →
        (normalizeAtmosphereSettings d s).cloudDensity = d.cloudDensity) ∧
     (0 ≤ (normalizeAtmosphereSettings d s).cloudDensity ∧
      (normalizeAtmosphereSettings d s).cloudDensity ≤ 2)) ∧
    ((∀ q, s.cloudSpeed = some (.fin q) →
        (normalizeAtmosphereSettings d s).cloudSpeed = min 2 (max 0 q)) ∧
     ((s.cloudSpeed = some .nonfinite ∨ s.cloudSpeed = none) →
        (normalizeAtmosphereSettings d s).cloudSpeed = d.cloudSpeed) ∧
     (0 ≤ (normalizeAtmosphereSettings d s).cloudSpeed ∧
      (normalizeAtmosphereSettings d s).cloudSpeed ≤ 2)) ∧
    ((∀ w, s.weather = some (.vstr w) → lowerStr w ∈ WEATHER_PRESETS →
        (normalizeAtmosphereSettings d s).weather = lowerStr w) ∧
     (∀ w, s.weather = some (.vstr w) → lowerStr w ∉ WEATHER_PRESETS →
        (normalizeAtmosphereSettings d s).weather = d.weather) ∧
     (∀ q, s.weather = some (.vnum q) →
        (normalizeAtmosphereSettings d s).weather = d.weather) ∧
     (s.weather = some .vnull →
        (normalizeAtmosphereSettings d s).weather = d.weather) ∧
     (s.weather = none →
        (normalizeAtmosphereSettings d s).weather = d.weather) ∧
     ((normalizeAtmosphereSettings d s).weather ∈ WEATHER_PRESETS)) ∧
    ((normalizeAtmosphereSettings d s).enableStreaming =
       s.enableStreaming.getD d.enableStreaming ∧
     (normalizeAtmosphereSettings d s).showTypingIndicator =
       s.showTypingIndicator.getD d.showTypingIndicator ∧
     (normalizeAtmosphereSettings d s).enableAutoreplies =
       s.enableAutoreplies.getD d.enableAutoreplies ∧
     (normalizeAtmosphereSettings d s).shadowsEnabled =
       s.shadowsEnabled.getD d.shadowsEnabled ∧
     (normalizeAtmosphereSettings d s).showChatBubbles =
       s.showChatBubbles.getD d.showChatBubbles ∧
     (normalizeAtmosphereSettings d s).cloudsEnabled =
       s.cloudsEnabled.getD d.cloudsEnabled) := by
  obtain ⟨hT, hW, hF, hM, hR, hRain, hFog, hCD, hCS⟩ := hd
  have hdw : lowerStr d.weather = d.weather := by
    simp only [WEATHER_PRESETS, List.mem_cons, List.mem_singleton,
      List.not_mem_nil, or_false] at hW
    rcases hW with h | h | h <;> rw [h] <;> decide
  have hwmem : ∀ v, normalizeWeatherValue d.weather v ∈ WEATHER_PRESETS := by
    intro v
    cases v with
    | vstr w =>
      by_cases hm : lowerStr w ∈ WEATHER_PRESETS <;>
        simp [normalizeWeatherValue, hm, hW]
    | vnum q => simpa [normalizeWeatherValue] using hW
    | vnull => simpa [normalizeWeatherValue] using hW
  refine ⟨clampInRange_spec 40 100 d.cameraFov (by norm_num) hF.1 hF.2 s.cameraFov,
    clampInRange_spec (1/5) 3 d.mouseSensitivity (by norm_num) hM.1 hM.2 s.mouseSensitivity,
    clampInRange_spec (1/2) (3/2) d.renderScale (by norm_num) hR.1 hR.2 s.renderScale,
    clampInRange_spec 0 2 d.rainIntensity (by norm_num) hRain.1 hRain.2 s.rainIntensity,
    clampInRange_spec (1/5) 3 d.fogDensity (by norm_num) hFog.1 hFog.2 s.fogDensity,
    clampInRange_spec 0 2 d.cloudDensity (by norm_num) hCD.1 hCD.2 s.cloudDensity,
    clampInRange_spec 0 2 d.cloudSpeed (by norm_num) hCS.1 hCS.2 s.cloudSpeed,
    ⟨?_, ?_, ?_, ?_, ?_, hwmem _⟩, rfl, rfl, rfl, rfl, rfl, rfl⟩
  · intro w hw hm
    show normalizeWeatherValue d.weather (s.weather.getD (.vstr d.weather)) = lowerStr w
    rw [hw]
    simp [normalizeWeatherValue, hm]
  · intro w hw hm
    show normalizeWeatherValue d.weather (s.weather.getD (.vstr d.weather)) = d.weather
    rw [hw]
    simp [normalizeWeatherValue, hm]
  · intro q hw
    show normalizeWeatherValue d.weather (s.weather.getD (.vstr d.weather)) = d.weather
    rw [hw]
    rfl
  · intro hw
    show normalizeWeatherValue d.weather (s.weather.getD (.vstr d.weather)) = d.weather
    rw [hw]
    rfl
  · intro hw
    show normalizeWeatherValue d.weather (s.weather.getD (.vstr d.weather)) = d.weather
    rw [hw]
    simp [normalizeWeatherValue, hdw, hW]

/-- C3 (witness): with concrete in-range defaults, a finite out-of-range
raw FOV of 150 normalizes into the valid range. -/
theorem C3_witness :
    40 ≤ (normalizeAtmosphereSettings ⟨12, "clear", 75, 1, 1, 1, 1, 1, 1, false,
      false, false, false, false, false⟩
      { cameraFov := some (.fin 150) }).cameraFov := by
  have h := C3_amended ⟨12, "clear", 75, 1, 1, 1, 1, 1, 1, false, false, false,
      false, false, false⟩
    ⟨⟨by norm_num, by norm_num⟩, by simp [WEATHER_PRESETS], ⟨by norm_num, by norm_num⟩,
     ⟨by norm_num, by norm_num⟩, ⟨by norm_num, by norm_num⟩, ⟨by norm_num, by norm_num⟩,
     ⟨by norm_num, by norm_num⟩, ⟨by norm_num, by norm_num⟩, ⟨by norm_num, by norm_num⟩⟩
    { cameraFov := some (.fin 150) }
  exact h.1.2.2.1

/-- C4.  The normalized time of day equals the (valid) default when the
raw value coerces to a non-finite number or is absent, and otherwise
equals the raw value clamped to [0, 24] with 24 then folded to 0; in
particular raw values 24, 25 and -1 all normalize to 0, and the result
always lies in [0, 24). -/
theorem C4_time_of_day (d : DefaultSettings)
    (hd : 0 ≤ d.timeOfDay ∧ d.timeOfDay < 24) (s : RawAtmosphereSettings) :
    (s.timeOfDay = some .nonfinite →
       (normalizeAtmosphereSettings d s).timeOfDay = d.timeOfDay) ∧
    (s.timeOfDay = none →
       (normalizeAtmosphereSettings d s).timeOfDay = d.timeOfDay) ∧
    (∀ q, s.timeOfDay = some (.fin q) →
       (normalizeAtmosphereSettings d s).timeOfDay =
         (if min 24 (max 0 q) = 24 then 0 else min 24 (max 0 q))) ∧
    (s.timeOfDay = some (.fin 24) →
       (normalizeAtmosphereSettings d s).timeOfDay = 0) ∧
    (s.timeOfDay = some (.fin 25) →
       (normalizeAtmosphereSettings d s).timeOfDay = 0) ∧
    (s.timeOfDay = some (.fin (-1)) →
       (normalizeAtmosphereSettings d s).timeOfDay = 0) ∧
    (0 ≤ (normalizeAtmosphereSettings d s).timeOfDay ∧
     (normalizeAtmosphereSettings d s).timeOfDay < 24) := by
  have hnone : s.timeOfDay = none →
      (normalizeAtmosphereSettings d s).timeOfDay = d.timeOfDay := by
    intro h
    show clampTimeOfDayValue d.timeOfDay (s.timeOfDay.getD (.fin d.timeOfDay)) =
      d.timeOfDay
    rw [h]
    simp only [Option.getD_none, clampTimeOfDayValue]
    rw [max_eq_right hd.1, min_eq_right hd.2.le, if_neg (ne_of_lt hd.2)]
  refine ⟨?_, hnone, ?_, ?_, ?_, ?_, ?_⟩
  · intro h
    show clampTimeOfDayValue d.timeOfDay (s.timeOfDay.getD (.fin d.timeOfDay)) =
      d.timeOfDay
    rw [h]
    rfl
  · intro q h
    show clampTimeOfDayValue d.timeOfDay (s.timeOfDay.getD (.fin d.timeOfDay)) = _
    rw [h]
    rfl
  · intro h
    show clampTimeOfDayValue d.timeOfDay (s.timeOfDay.getD (.fin d.timeOfDay)) = 0
    rw [h]
    norm_num [clampTimeOfDayValue]
  · intro h
    show clampTimeOfDayValue d.timeOfDay (s.timeOfDay.getD (.fin d.timeOfDay)) = 0
    rw [h]
    norm_num [clampTimeOfDayValue]
  · intro h
    show clampTimeOfDayValue d.timeOfDay (s.timeOfDay.getD (.fin d.timeOfDay)) = 0
    rw [h]
    norm_num [clampTimeOfDayValue]
  · exact clampTimeOfDay_bounds d.timeOfDay hd.1 hd.2
      (s.timeOfDay.getD (.fin d.timeOfDay))

/-- C4 (witness): with default 12, a raw time of day of 25 clamps to 24
and folds to 0. -/
theorem C4_witness :
    (normalizeAtmosphereSettings ⟨12, "clear", 75, 1, 1, 1, 1, 1, 1, false,
       false, false, false, false, false⟩
       { timeOfDay := some (.fin 25) }).timeOfDay = 0 := by
  have h := C4_time_of_day ⟨12, "clear", 75, 1, 1, 1, 1, 1, 1, false, false,
      false, false, false, false⟩ (by norm_num) { timeOfDay := some (.fin 25) }
  exact h.2.2.2.2.1 rfl

/-- C8 (counterexample).  The clause that the time pattern accepts any
finite decimal is false on the code: the numeral part of the regex is
an unsigned digit run with an optional fractional part, so the finite
decimal -1 after the slash-time marker matches nothing and no command is
dispatched, while the unsigned 1 is accepted. -/
theorem C8_counterexample :
    checkForWorldCommands "/time -1" = [] ∧
    checkForWorldCommands "/time 1" =
      [{ command := "time", args := [CmdArg.argNum 1] }] := by
  constructor <;> decide

/-- C8 (amended).  Command extraction scans case-insensitively anywhere in
the text, honours only the first match of each kind (so at most one
weather and at most one time command are dispatched), dispatches nothing
when neither pattern matches, lower-cases the weather preset, and parses
the time numeral — an unsigned decimal digit run with an optional
fractional part — without range-clamping.  In particular
"hello /TIME 13.5 world" yields exactly one time command with value 13.5,
big values pass through unclamped, and only the first of two matches of
the same kind is honoured. -/
theorem C8_command_extraction (text : String) :
    ((checkForWorldCommands text).countP (fun c => c.command == "weather") ≤ 1) ∧
    ((checkForWorldCommands text).countP (fun c => c.command == "time") ≤ 1) ∧
    (findWeatherCommand (lcChars text) = none →
       findTimeCommand (lcChars text) = none → checkForWorldCommands text = []) ∧
    (∀ w, findWeatherCommand (lcChars text) = some w → text ≠ "" →
       { command := "weather", args := [CmdArg.argStr w] } ∈
         checkForWorldCommands text) ∧
    (∀ t, findTimeCommand (lcChars text) = some t → text ≠ "" →
       { command := "time", args := [CmdArg.argNum t] } ∈
         checkForWorldCommands text) ∧
    (checkForWorldCommands "hello /TIME 13.5 world" =
       [{ command := "time", args := [CmdArg.argNum (27/2)] }]) ∧
    (checkForWorldCommands "/weather CLEAR and later /weather foggy" =
       [{ command := "weather", args := [CmdArg.argStr "clear"] }]) ∧
    (checkForWorldCommands "/time 5 then /time 7" =
       [{ command := "time", args := [CmdArg.argNum 5] }]) ∧
    (checkForWorldCommands "/time 999" =
       [{ command := "time", args := [CmdArg.argNum 999] }]) := by
  have hthirteen : checkForWorldCommands "hello /TIME 13.5 world" =
      [{ command := "time", args := [CmdArg.argNum (27/2)] }] := by
    have h1 : checkForWorldCommands "hello /TIME 13.5 world" =
        [{ command := "time",
           args := [CmdArg.argNum ((13 : ℚ) + (5 : ℚ)/(10 : ℚ)^(1 : ℕ))] }] := rfl
    have hval : ((13 : ℚ) + (5 : ℚ)/(10 : ℚ)^(1 : ℕ)) = (27 : ℚ)/2 := by norm_num
    rw [h1, hval]
  refine ⟨?_, ?_, ?_, ?_, ?_, hthirteen, by decide, by decide, by decide⟩
  · by_cases h0 : text = ""
    · simp [checkForWorldCommands, h0]
    · cases hw : findWeatherCommand (lcChars text) <;>
        cases ht : findTimeCommand (lcChars text) <;>
          simp [checkForWorldCommands, h0, hw, ht, List.countP_cons, List.countP_nil]
  · by_cases h0 : text = ""
    · simp [checkForWorldCommands, h0]
    · cases hw : findWeatherCommand (lcChars text) <;>
        cases ht : findTimeCommand (lcChars text) <;>
          simp [checkForWorldCommands, h0, hw, ht, List.countP_cons, List.countP_nil]
  · intro hw ht
    by_cases h0 : text = "" <;> simp [checkForWorldCommands, h0, hw, ht]
  · intro w hw h0
    cases ht : findTimeCommand (lcChars text) <;>
      simp [checkForWorldCommands, h0, hw, ht]
  · intro t ht h0
    cases hw : findWeatherCommand (lcChars text) <;>
      simp [checkForWorldCommands, h0, hw, ht]

end WorldEngine
